import Mathlib

/-
Verification of the per-paper pipeline state machine of the arxiv-digest
repository (modules `arxiv_digest/db.py` and `src/pipeline.py`).

The status store (a SQLite table keyed by `arxiv_id`) is embedded as an
association list from ids to rows; every store operation of `db.py` is
translated as a pure function on that list.  The stage sequencer of
`pipeline.py` is embedded per paper, with the external collaborators
(model chat calls, JSON parsing, PDF download, text extraction, email
delivery) supplied as per-paper oracles, exactly at the module boundaries
the Python code uses.
-/

set_option autoImplicit false

namespace ArxivDigest

/-- Status enum values of `db.py` (lines 14-23). -/
inductive Status where
  | NEW
  | SKIPPED
  | STAGE1_OK
  | STAGE1_RELEVANT
  | PDF_DOWNLOADED
  | TEXT_EXTRACTED
  | STAGE2_OK
  | EMAILED
  | FAILED
  deriving Repr, BEq, DecidableEq

/-- One row of the `papers` table (`db.py`, `ensure_db`). Timestamps are
abstracted as naturals. -/
structure PaperRecord where
  title : String
  categories : String
  status : Status
  created_at : Nat
  updated_at : Nat
  stage1_json : Option String
  stage2_json : Option String
  error_message : Option String
  deriving Repr, DecidableEq

/-- The `papers` table: an association list keyed by `arxiv_id` (primary key). -/
abbrev DB := List (String × PaperRecord)

/-- `SELECT ... WHERE arxiv_id = ?`: first row with the given key. -/
def getRecord : DB → String → Option PaperRecord
  | [], _ => none
  | (k, r) :: rest, id => if k = id then some r else getRecord rest id

/-- `UPDATE ... WHERE arxiv_id = ?`: rewrite the row with the given key
(no-op when the key is absent, as in SQL). -/
def updateRecord (f : PaperRecord → PaperRecord) : DB → String → DB
  | [], _ => []
  | (k, r) :: rest, id =>
      if k = id then (k, f r) :: rest else (k, r) :: updateRecord f rest id

/-- `PROCESSED_STATUSES` (`db.py` line 26): already emailed, skipped, or stage2 done. -/
def PROCESSED_STATUSES : List Status := [Status.EMAILED, Status.SKIPPED, Status.STAGE2_OK]

/-- `IN_PROGRESS_STATUSES` (`db.py` lines 28-30): in-flight, do not start again. -/
def IN_PROGRESS_STATUSES : List Status :=
  [Status.NEW, Status.STAGE1_OK, Status.STAGE1_RELEVANT,
   Status.PDF_DOWNLOADED, Status.TEXT_EXTRACTED]

/-- `upsert_paper_metadata` (`db.py` lines 72-100): insert a fresh row when
the id is absent; otherwise update only `title`, `categories`, `updated_at`. -/
def upsert_paper_metadata (db : DB) (arxiv_id title categories : String)
    (status : Status) (now : Nat) : DB :=
  match getRecord db arxiv_id with
  | none =>
      (arxiv_id,
       { title := title, categories := categories, status := status,
         created_at := now, updated_at := now,
         stage1_json := none, stage2_json := none, error_message := none }) :: db
  | some _ =>
      updateRecord
        (fun r => { r with title := title, categories := categories, updated_at := now })
        db arxiv_id

/-- SQL `COALESCE(new, old)`: the new value when provided, else the stored one. -/
def coalesce (new old : Option String) : Option String :=
  match new with
  | some v => some v
  | none => old

/-- `mark_status` (`db.py` lines 103-123): set `status` and `updated_at`,
COALESCE the optional payload fields; when no row matches, the update
changes nothing (a warning is logged, nothing is raised). -/
def mark_status (db : DB) (arxiv_id : String) (status : Status)
    (stage1_json stage2_json error_message : Option String) (now : Nat) : DB :=
  updateRecord
    (fun r =>
      { r with
        status := status, updated_at := now,
        stage1_json := coalesce stage1_json r.stage1_json,
        stage2_json := coalesce stage2_json r.stage2_json,
        error_message := coalesce error_message r.error_message })
    db arxiv_id

/-- `get_status` (`db.py` lines 126-131). -/
def get_status (db : DB) (arxiv_id : String) : Option Status :=
  (getRecord db arxiv_id).map (fun r => r.status)

/-- `is_processed` (`db.py` lines 134-137); `None in frozenset` is `False`. -/
def is_processed (db : DB) (arxiv_id : String) : Bool :=
  match get_status db arxiv_id with
  | none => false
  | some s => PROCESSED_STATUSES.contains s

/-- `is_in_progress_or_processed` (`db.py` lines 140-145). -/
def is_in_progress_or_processed (db : DB) (arxiv_id : String) : Bool :=
  match get_status db arxiv_id with
  | none => false
  | some s => PROCESSED_STATUSES.contains s || IN_PROGRESS_STATUSES.contains s

/-! ### Basic store lemmas -/

theorem getRecord_updateRecord_self (f : PaperRecord → PaperRecord)
    (db : DB) (id : String) (r : PaperRecord) (h : getRecord db id = some r) :
    getRecord (updateRecord f db id) id = some (f r) := by
  induction db with
  | nil => simp [getRecord] at h
  | cons p rest ih =>
      obtain ⟨k, v⟩ := p
      by_cases hk : k = id
      · subst hk
        simp [getRecord] at h
        simp [updateRecord, getRecord, h]
      · simp [getRecord, hk] at h
        simp [updateRecord, getRecord, hk, ih h]

theorem getRecord_updateRecord_ne (f : PaperRecord → PaperRecord)
    (db : DB) (id q : String) (hq : q ≠ id) :
    getRecord (updateRecord f db id) q = getRecord db q := by
  induction db with
  | nil => simp [updateRecord]
  | cons p rest ih =>
      obtain ⟨k, v⟩ := p
      by_cases hk : k = id
      · subst hk
        have : ¬ k = q := fun h => hq h.symm
        simp [updateRecord, getRecord, this]
      · by_cases hkq : k = q
        · simp [updateRecord, getRecord, hk, hkq, hq]
        · simp [updateRecord, getRecord, hk, hkq, ih]

theorem updateRecord_absent (f : PaperRecord → PaperRecord)
    (db : DB) (id : String) (h : getRecord db id = none) :
    updateRecord f db id = db := by
  induction db with
  | nil => simp [updateRecord]
  | cons p rest ih =>
      obtain ⟨k, v⟩ := p
      by_cases hk : k = id
      · simp [getRecord, hk] at h
      · simp [getRecord, hk] at h
        simp [updateRecord, hk, ih h]

theorem getRecord_upsert_ne {q id : String} (hq : q ≠ id) (db : DB)
    (t c : String) (st : Status) (now : Nat) :
    getRecord (upsert_paper_metadata db id t c st now) q = getRecord db q := by
  unfold upsert_paper_metadata
  cases h : getRecord db id with
  | none =>
      have : ¬ id = q := fun h => hq h.symm
      simp [getRecord, this]
  | some r => simp [getRecord_updateRecord_ne _ _ _ _ hq]

theorem getRecord_mark_ne {q id : String} (hq : q ≠ id) (db : DB) (st : Status)
    (s1 s2 err : Option String) (now : Nat) :
    getRecord (mark_status db id st s1 s2 err now) q = getRecord db q := by
  unfold mark_status
  exact getRecord_updateRecord_ne _ _ _ _ hq

theorem getRecord_upsert_self (db : DB) (id t c : String) (st : Status) (now : Nat) :
    ∃ r : PaperRecord,
      getRecord (upsert_paper_metadata db id t c st now) id = some r := by
  unfold upsert_paper_metadata
  cases h : getRecord db id with
  | none =>
      exact ⟨{ title := t, categories := c, status := st, created_at := now,
               updated_at := now, stage1_json := none, stage2_json := none,
               error_message := none }, by simp [getRecord]⟩
  | some r => exact ⟨_, getRecord_updateRecord_self _ _ _ _ h⟩

theorem getRecord_mark_self (db : DB) (id : String) (st : Status)
    (s1 s2 err : Option String) (now : Nat) (r : PaperRecord)
    (h : getRecord db id = some r) :
    getRecord (mark_status db id st s1 s2 err now) id =
      some { r with
             status := st, updated_at := now,
             stage1_json := coalesce s1 r.stage1_json,
             stage2_json := coalesce s2 r.stage2_json,
             error_message := coalesce err r.error_message } :=
  getRecord_updateRecord_self _ _ _ _ h

/-! ### Claims about the status store -/

/-- C1: `is_in_progress_or_processed` returns true exactly for ids whose
stored status lies in the processed set or in the in-flight set; it returns
false for an absent id, and false for a stored `FAILED` status, so a
previously failed paper is eligible for reprocessing. -/
theorem c1_skip_decision (db : DB) (id : String) :
    (∀ s : Status, get_status db id = some s →
        (PROCESSED_STATUSES.contains s || IN_PROGRESS_STATUSES.contains s) = true →
        is_in_progress_or_processed db id = true)
    ∧ (get_status db id = none → is_in_progress_or_processed db id = false)
    ∧ (get_status db id = some Status.FAILED →
        is_in_progress_or_processed db id = false) := by
  refine ⟨fun s hs hmem => ?_, fun h => ?_, fun h => ?_⟩
  · simp [is_in_progress_or_processed, hs, hmem]
  · simp [is_in_progress_or_processed, h]
  · simp [is_in_progress_or_processed, h]
    decide

/-- A fixed row used by concrete witnesses. -/
def recOf (s : Status) : PaperRecord :=
  { title := "t", categories := "cs.AI", status := s,
    created_at := 0, updated_at := 0,
    stage1_json := none, stage2_json := none, error_message := none }

/-- A small concrete store used by concrete witnesses. -/
def dbW : DB := [("a", recOf Status.STAGE1_OK), ("f", recOf Status.FAILED)]

/-- C1 witness: concrete evaluations of the skip decision. -/
theorem c1_skip_decision_witness :
    is_in_progress_or_processed dbW "a" = true
    ∧ is_in_progress_or_processed dbW "x" = false
    ∧ is_in_progress_or_processed dbW "f" = false :=
  ⟨(c1_skip_decision dbW "a").1 Status.STAGE1_OK (by decide) (by decide),
   (c1_skip_decision dbW "x").2.1 (by decide),
   (c1_skip_decision dbW "f").2.2 (by decide)⟩

/-- C2: on an existing row, `upsert_paper_metadata` rewrites only `title`,
`categories` and `updated_at` — `status`, `created_at` and all payload
fields are untouched (so a non-NEW status is never reset to NEW); on an
absent id it inserts a fresh row carrying the given status. -/
theorem c2_upsert_frame (db : DB) (id t c : String) (st : Status) (now : Nat) :
    (∀ r : PaperRecord, getRecord db id = some r →
        getRecord (upsert_paper_metadata db id t c st now) id =
          some { r with title := t, categories := c, updated_at := now })
    ∧ (getRecord db id = none →
        getRecord (upsert_paper_metadata db id t c st now) id =
          some { title := t, categories := c, status := st,
                 created_at := now, updated_at := now,
                 stage1_json := none, stage2_json := none,
                 error_message := none }) := by
  constructor
  · intro r h
    unfold upsert_paper_metadata
    rw [h]
    exact getRecord_updateRecord_self _ _ _ _ h
  · intro h
    unfold upsert_paper_metadata
    rw [h]
    simp [getRecord]

/-- C2 witness: updating an existing row keeps its status; inserting an
absent one records the given status. -/
theorem c2_upsert_frame_witness :
    getRecord (upsert_paper_metadata dbW "a" "t2" "cs.LG" Status.NEW 5) "a" =
      some { recOf Status.STAGE1_OK with
             title := "t2", categories := "cs.LG", updated_at := 5 }
    ∧ getRecord (upsert_paper_metadata dbW "z" "t3" "cs.CL" Status.NEW 5) "z" =
      some { title := "t3", categories := "cs.CL", status := Status.NEW,
             created_at := 5, updated_at := 5,
             stage1_json := none, stage2_json := none, error_message := none } :=
  ⟨(c2_upsert_frame dbW "a" "t2" "cs.LG" Status.NEW 5).1 (recOf Status.STAGE1_OK) (by decide),
   (c2_upsert_frame dbW "z" "t3" "cs.CL" Status.NEW 5).2 (by decide)⟩

/-- C3: on an existing row, `mark_status` sets the status (so `get_status`
returns it), overwrites each payload field passed as `some`, retains each
field passed as `none`, and never clears a payload already written. -/
theorem c3_mark_status_update (db : DB) (id : String) (st : Status)
    (s1 s2 err : Option String) (now : Nat) (r : PaperRecord)
    (h : getRecord db id = some r) :
    getRecord (mark_status db id st s1 s2 err now) id =
      some { r with
             status := st, updated_at := now,
             stage1_json := coalesce s1 r.stage1_json,
             stage2_json := coalesce s2 r.stage2_json,
             error_message := coalesce err r.error_message }
    ∧ get_status (mark_status db id st s1 s2 err now) id = some st
    ∧ (s1 = none → ∃ r' : PaperRecord,
        getRecord (mark_status db id st s1 s2 err now) id = some r'
        ∧ r'.stage1_json = r.stage1_json)
    ∧ (r.stage1_json ≠ none → ∃ r' : PaperRecord,
        getRecord (mark_status db id st s1 s2 err now) id = some r'
        ∧ r'.stage1_json ≠ none) := by
  have hrec := getRecord_mark_self db id st s1 s2 err now r h
  refine ⟨hrec, ?_, fun hs1 => ⟨_, hrec, ?_⟩, fun hne => ⟨_, hrec, ?_⟩⟩
  · simp [get_status, hrec]
  · simp [hs1, coalesce]
  · cases s1 with
    | none => simpa [coalesce] using hne
    | some v => simp [coalesce]

/-- C3 witness: concrete partial update retaining a stored stage-1 payload. -/
theorem c3_mark_status_update_witness :
    getRecord
      (mark_status [("a", { recOf Status.STAGE1_OK with stage1_json := some "p1" })]
        "a" Status.SKIPPED none none none 7) "a" =
      some { recOf Status.STAGE1_OK with
             status := Status.SKIPPED, updated_at := 7, stage1_json := some "p1" }
    ∧ get_status
      (mark_status [("a", { recOf Status.STAGE1_OK with stage1_json := some "p1" })]
        "a" Status.SKIPPED none none none 7) "a" = some Status.SKIPPED := by
  have h := c3_mark_status_update
    [("a", { recOf Status.STAGE1_OK with stage1_json := some "p1" })]
    "a" Status.SKIPPED none none none 7
    { recOf Status.STAGE1_OK with stage1_json := some "p1" } (by decide)
  exact ⟨h.1, h.2.1⟩

/-- C4: `mark_status` on an id with no row is a total no-op: the store is
unchanged and the id is still absent afterwards. -/
theorem c4_mark_status_missing (db : DB) (id : String) (st : Status)
    (s1 s2 err : Option String) (now : Nat)
    (h : getRecord db id = none) :
    mark_status db id st s1 s2 err now = db
    ∧ get_status (mark_status db id st s1 s2 err now) id = none := by
  have heq : mark_status db id st s1 s2 err now = db := by
    unfold mark_status
    exact updateRecord_absent _ db id h
  exact ⟨heq, by simp [get_status, heq, h]⟩

/-- C4 witness: marking an unseen id leaves the concrete store unchanged. -/
theorem c4_mark_status_missing_witness :
    mark_status dbW "zz" Status.FAILED none none (some "e") 9 = dbW
    ∧ get_status (mark_status dbW "zz" Status.FAILED none none (some "e") 9) "zz" = none :=
  c4_mark_status_missing dbW "zz" Status.FAILED none none (some "e") 9 (by decide)

/-! ### Stage sequencer embedding (`src/pipeline.py`)

The per-paper loop body of `run_pipeline` (lines 94-256) is embedded as a
pure function.  Each external collaborator is an oracle carried by `Env`:
the outcome of a call is an `Except`, `.error` standing for a raised
exception (for `chat_completion`, `download_pdf`, `extract_text`,
`send_digest_email`) or a `ValueError` (for the `parse_stage*_json`
functions); an oracle whose real counterpart depends on dynamic input
(repair prompts built from the previous raw reply, the Stage-2 prompt
built from the working text) is a function of that input.  Relevance
scores and the configured threshold are embedded as rationals. -/

/-- A fetched paper as handed to the sequencer (fields read by the loop). -/
structure PaperInput where
  arxiv_id : String
  title : String
  categories : List String
  abstract : Option String
  pdf_url : Option String

/-- A parsed Stage-1 topic entry; `relevance` may be absent
(the gate reads it with `t.get("relevance", 0)`). -/
structure TopicScore where
  relevance : Option Rat
  deriving Repr, DecidableEq

/-- The Stage-1 payload as the sequencer reads it (`stage1.get("topics", [])`). -/
structure Stage1Parsed where
  topics : List TopicScore
  deriving Repr, DecidableEq

/-- The Stage-2 payload; the sequencer only serializes it, never inspects it. -/
structure Stage2Parsed where
  payload : String
  deriving Repr, DecidableEq

/-- Per-paper oracles for the external collaborators of `run_pipeline`. -/
structure Env where
  chat_s1 : Except String String
  chat_s1_repair : String → Except String String
  parse_s1 : String → Except String Stage1Parsed
  dumps1 : Stage1Parsed → String
  download : Except String Unit
  extract : Except String String
  chat_s2 : String → Except String String
  chat_s2_repair : String → Except String String
  parse_s2 : String → Except String Stage2Parsed
  dumps2 : Stage2Parsed → String
  send_email : Except String Unit

/-- The configuration the loop body consults (`config["thresholds"]["relevance"]`). -/
structure Config where
  threshold : Rat

/-- Observable external side effects of one run, in order of occurrence. -/
inductive Effect where
  | modelCall
  | downloadPdf
  | extractText
  | emailSend
  deriving Repr, DecidableEq

/-- Python `max(xs, default=d)`: `d` only when the iterable is empty. -/
def pyMax (xs : List Rat) (d : Rat) : Rat :=
  match xs with
  | [] => d
  | x :: rest => rest.foldl max x

/-- `max((t.get("relevance", 0) for t in stage1.get("topics", [])), default=0)`
(`pipeline.py` lines 133-136). -/
def maxRelevance (st : Stage1Parsed) : Rat :=
  pyMax (st.topics.map (fun t => t.relevance.getD 0)) 0

/-- Python `str.strip()`: drop leading and trailing whitespace characters. -/
def pyStrip (s : String) : String :=
  String.mk
    (((s.data.dropWhile Char.isWhitespace).reverse.dropWhile Char.isWhitespace).reverse)

/-- Python `str.startswith(pre)`. -/
def pyStartsWith (s pre : String) : Bool :=
  pre.data.isPrefixOf s.data

/-- `(paper.get("abstract") or "").strip() or "(No abstract)"`
(`pipeline.py` lines 156, 172, 182, 197). -/
def fallbackText (p : PaperInput) : String :=
  let s := pyStrip (p.abstract.getD "")
  if s = "" then "(No abstract)" else s

/-- Stage-1 model call with the one-shot JSON repair (`pipeline.py` lines
106-126).  An initial `chat_completion` exception propagates to the
per-paper boundary; a `ValueError` from parsing triggers exactly one
repair call, whose own exception or parse failure yields the error the
loop records as `FAILED`.  Each `chat_completion` invocation is one
`modelCall` effect. -/
def stage1Step (env : Env) : Except String Stage1Parsed × List Effect :=
  match env.chat_s1 with
  | Except.error e => (Except.error e, [Effect.modelCall])
  | Except.ok raw1 =>
      match env.parse_s1 raw1 with
      | Except.ok st => (Except.ok st, [Effect.modelCall])
      | Except.error _ =>
          match env.chat_s1_repair raw1 with
          | Except.error e2 => (Except.error e2, [Effect.modelCall, Effect.modelCall])
          | Except.ok raw1r =>
              match env.parse_s1 raw1r with
              | Except.error e2 =>
                  (Except.error e2, [Effect.modelCall, Effect.modelCall])
              | Except.ok st => (Except.ok st, [Effect.modelCall, Effect.modelCall])

/-- Stage-2 model call with the one-shot JSON repair (`pipeline.py` lines
204-223).  The repair `try` block wraps both the repair call and its
parse, so either failure is recorded as `"Stage2 parse: ..."`; an initial
`chat_completion` exception propagates to the per-paper boundary. -/
def stage2Step (env : Env) (full_text : String) :
    Except String Stage2Parsed × List Effect :=
  match env.chat_s2 full_text with
  | Except.error e => (Except.error e, [Effect.modelCall])
  | Except.ok raw2 =>
      match env.parse_s2 raw2 with
      | Except.ok st => (Except.ok st, [Effect.modelCall])
      | Except.error _ =>
          match env.chat_s2_repair raw2 with
          | Except.error e2 =>
              (Except.error ("Stage2 parse: " ++ e2),
               [Effect.modelCall, Effect.modelCall])
          | Except.ok raw2r =>
              match env.parse_s2 raw2r with
              | Except.error e2 =>
                  (Except.error ("Stage2 parse: " ++ e2),
                   [Effect.modelCall, Effect.modelCall])
              | Except.ok st => (Except.ok st, [Effect.modelCall, Effect.modelCall])

/-- Stage 2 and delivery (`pipeline.py` lines 204-252): on Stage-2 success
persist `STAGE2_OK` with the serialized payload, then attempt the email;
an email exception is recorded as `FAILED` with prefix `"Email: "`,
success as `EMAILED`. -/
def stage2AndEmail (env : Env) (now : Nat) (db : DB) (p : PaperInput)
    (full_text : String) (effs : List Effect) : DB × List Effect :=
  match stage2Step env full_text with
  | (Except.error msg, e2) =>
      (mark_status db p.arxiv_id Status.FAILED none none (some msg) now, effs ++ e2)
  | (Except.ok st2, e2) =>
      let db1 := mark_status db p.arxiv_id Status.STAGE2_OK none
        (some (env.dumps2 st2)) none now
      match env.send_email with
      | Except.error e =>
          (mark_status db1 p.arxiv_id Status.FAILED none none
            (some ("Email: " ++ e)) now,
           effs ++ e2 ++ [Effect.emailSend])
      | Except.ok _ =>
          (mark_status db1 p.arxiv_id Status.EMAILED none none none now,
           effs ++ e2 ++ [Effect.emailSend])

/-- Acquisition and extraction (`pipeline.py` lines 144-202): download the
PDF when a URL exists (falling back to the abstract on failure, with the
50-character floor), extract text (same fallback), reject extracted text
that starts with `"[Extraction failed:"` or is under 100 characters, and
use the abstract directly when there is no PDF URL. -/
def afterRelevant (env : Env) (now : Nat) (db : DB) (p : PaperInput)
    (effs : List Effect) : DB × List Effect :=
  match p.pdf_url with
  | some _ =>
      match env.download with
      | Except.error _ =>
          let full_text := fallbackText p
          if full_text.length < 50 then
            (mark_status db p.arxiv_id Status.FAILED none none
              (some "PDF failed and abstract too short") now,
             effs ++ [Effect.downloadPdf])
          else
            stage2AndEmail env now
              (mark_status db p.arxiv_id Status.TEXT_EXTRACTED none none none now)
              p full_text (effs ++ [Effect.downloadPdf])
      | Except.ok _ =>
          let db1 := mark_status db p.arxiv_id Status.PDF_DOWNLOADED none none none now
          match env.extract with
          | Except.error e =>
              let full_text := fallbackText p
              if full_text.length < 50 then
                (mark_status db1 p.arxiv_id Status.FAILED none none
                  (some ("PDF text extraction: " ++ e)) now,
                 effs ++ [Effect.downloadPdf, Effect.extractText])
              else
                stage2AndEmail env now
                  (mark_status db1 p.arxiv_id Status.TEXT_EXTRACTED none none none now)
                  p full_text (effs ++ [Effect.downloadPdf, Effect.extractText])
          | Except.ok text =>
              let n := (pyStrip text).length
              if pyStartsWith (pyStrip text) "[Extraction failed:" ∨ n < 100 then
                let fb := fallbackText p
                if fb.length ≥ 50 then
                  stage2AndEmail env now
                    (mark_status db1 p.arxiv_id Status.TEXT_EXTRACTED none none none now)
                    p fb (effs ++ [Effect.downloadPdf, Effect.extractText])
                else
                  (mark_status db1 p.arxiv_id Status.FAILED none none
                    (some ("PDF text too short (" ++ toString n ++ " chars)")) now,
                   effs ++ [Effect.downloadPdf, Effect.extractText])
              else
                stage2AndEmail env now
                  (mark_status db1 p.arxiv_id Status.TEXT_EXTRACTED none none none now)
                  p text (effs ++ [Effect.downloadPdf, Effect.extractText])
  | none =>
      let full_text := fallbackText p
      if full_text.length < 50 then
        (mark_status db p.arxiv_id Status.FAILED none none
          (some "No PDF and abstract too short") now,
         effs)
      else
        stage2AndEmail env now
          (mark_status db p.arxiv_id Status.TEXT_EXTRACTED none none none now)
          p full_text effs

/-- Processing of a paper that passed the skip check (`pipeline.py` lines
103-256): intake upsert with status `NEW`, Stage 1 with repair, the
relevance gate, then acquisition, Stage 2 and delivery.  A Stage-1 error
(either an exception reaching the per-paper boundary or a failed repair)
is recorded as `FAILED` with its message. -/
def processNew (cfg : Config) (env : Env) (now : Nat) (db0 : DB)
    (p : PaperInput) : DB × List Effect :=
  let db1 := upsert_paper_metadata db0 p.arxiv_id p.title
    (String.intercalate "," p.categories) Status.NEW now
  match stage1Step env with
  | (Except.error msg, effs) =>
      (mark_status db1 p.arxiv_id Status.FAILED none none (some msg) now, effs)
  | (Except.ok st1, effs) =>
      let db2 := mark_status db1 p.arxiv_id Status.STAGE1_OK
        (some (env.dumps1 st1)) none none now
      if maxRelevance st1 < cfg.threshold then
        (mark_status db2 p.arxiv_id Status.SKIPPED none none none now, effs)
      else
        afterRelevant env now
          (mark_status db2 p.arxiv_id Status.STAGE1_RELEVANT none none none now)
          p effs

/-- One iteration of the per-paper loop (`pipeline.py` lines 94-256),
including the skip decision of line 99. -/
def processPaper (cfg : Config) (env : Env) (now : Nat) (db0 : DB)
    (p : PaperInput) : DB × List Effect :=
  if is_in_progress_or_processed db0 p.arxiv_id then (db0, [])
  else processNew cfg env now db0 p

/-- The whole loop over the fetched batch, in fetch order. -/
def runPapers (cfg : Config) (now : Nat) :
    DB → List (PaperInput × Env) → DB × List Effect
  | db, [] => (db, [])
  | db, (p, env) :: rest =>
      let step := processPaper cfg env now db p
      let tail := runPapers cfg now step.1 rest
      (tail.1, step.2 ++ tail.2)

/-! ### Further helper lemmas and concrete fixtures -/

theorem get_status_mark_of_some (db : DB) (id : String) (st : Status)
    (s1 s2 err : Option String) (now : Nat) (r : PaperRecord)
    (h : getRecord db id = some r) :
    get_status (mark_status db id st s1 s2 err now) id = some st := by
  simp [get_status, getRecord_mark_self db id st s1 s2 err now r h]

/-- A threshold configuration used by concrete witnesses. -/
def cfg1 : Config := { threshold := 1 }

/-- An environment whose collaborators all fail, used by concrete witnesses. -/
def envErr : Env :=
  { chat_s1 := Except.error "down",
    chat_s1_repair := fun _ => Except.error "down",
    parse_s1 := fun _ => Except.error "bad",
    dumps1 := fun _ => "",
    download := Except.error "down",
    extract := Except.error "down",
    chat_s2 := fun _ => Except.error "down",
    chat_s2_repair := fun _ => Except.error "down",
    parse_s2 := fun _ => Except.error "bad",
    dumps2 := fun _ => "",
    send_email := Except.error "down" }

/-- An environment whose Stage-1 call succeeds and parses to an empty topic
list, used by concrete witnesses. -/
def envS1 : Env :=
  { envErr with
    chat_s1 := Except.ok "raw",
    parse_s1 := fun _ => Except.ok { topics := [] } }

/-- An environment whose model replies never parse (both the original call
and the repair return content, parsing always fails), used by witnesses. -/
def envS1Bad : Env :=
  { envErr with
    chat_s1 := Except.ok "raw",
    chat_s1_repair := fun _ => Except.ok "raw" }

/-- A concrete fetched paper used by concrete witnesses. -/
def pC5 : PaperInput :=
  { arxiv_id := "2401.00001", title := "t", categories := ["cs.AI"],
    abstract := some "a", pdf_url := none }

/-- A concrete paper with no abstract and no PDF, used by concrete witnesses. -/
def pNoAbs : PaperInput :=
  { arxiv_id := "2401.00002", title := "t", categories := [],
    abstract := none, pdf_url := none }

/-- A store holding one mid-pipeline paper, used by C5. -/
def dbC5 : DB := [("2401.00001", recOf Status.STAGE1_OK)]

/-! ### Claims about the stage sequencer -/

/-- C5 counterexample: a paper whose recorded status is `STAGE1_OK` — a
durably recorded mid-pipeline stage, not in the terminal processed set —
is left completely untouched by the next run (no stage is executed, no
effect takes place), contradicting the claim that only papers in the
terminal processed set are left untouched and that a partially processed
paper is resumed. -/
theorem c5_resume_counterexample :
    get_status dbC5 "2401.00001" = some Status.STAGE1_OK
    ∧ PROCESSED_STATUSES.contains Status.STAGE1_OK = false
    ∧ processPaper cfg1 envErr 1 dbC5 pC5 = (dbC5, []) := by
  refine ⟨by decide, by decide, ?_⟩
  have h : is_in_progress_or_processed dbC5 pC5.arxiv_id = true := by decide
  simp [processPaper, h]

/-- C5 amended: an interrupted run is not resumed mid-pipeline.  On the
next run, every paper whose recorded status is in the processed set or the
in-flight set — not only the terminal ones — is skipped entirely and left
untouched; a paper with no record or a `FAILED` record is (re)started from
the first stage. -/
theorem c5_no_resume (cfg : Config) (env : Env) (now : Nat) (db : DB)
    (p : PaperInput) :
    (is_in_progress_or_processed db p.arxiv_id = true →
      processPaper cfg env now db p = (db, []))
    ∧ (is_in_progress_or_processed db p.arxiv_id = false →
      processPaper cfg env now db p = processNew cfg env now db p) := by
  constructor <;> intro h <;> simp [processPaper, h]

/-- C5 witness: the skip decision on a concrete mid-pipeline record and a
concrete fresh one. -/
theorem c5_no_resume_witness :
    processPaper cfg1 envErr 1 dbC5 pC5 = (dbC5, [])
    ∧ processPaper cfg1 envErr 1 [] pC5 = processNew cfg1 envErr 1 [] pC5 :=
  ⟨(c5_no_resume cfg1 envErr 1 dbC5 pC5).1 (by decide),
   (c5_no_resume cfg1 envErr 1 [] pC5).2 (by decide)⟩

/-- C6: once Stage 1 has succeeded, a maximum topic relevance (0 for an
empty topic list) strictly below the threshold ends the paper at `SKIPPED`
with only the one Stage-1 model call — no download, extraction, Stage-2
call or email; otherwise the paper is marked `STAGE1_RELEVANT` and
processing continues with acquisition. -/
theorem c6_relevance_gate (cfg : Config) (env : Env) (now : Nat) (db0 : DB)
    (p : PaperInput) (st1 : Stage1Parsed) (effs : List Effect)
    (hskip : is_in_progress_or_processed db0 p.arxiv_id = false)
    (hs1 : stage1Step env = (Except.ok st1, effs)) :
    (maxRelevance st1 < cfg.threshold →
      processPaper cfg env now db0 p =
        (mark_status
          (mark_status
            (upsert_paper_metadata db0 p.arxiv_id p.title
              (String.intercalate "," p.categories) Status.NEW now)
            p.arxiv_id Status.STAGE1_OK (some (env.dumps1 st1)) none none now)
          p.arxiv_id Status.SKIPPED none none none now,
         effs)
      ∧ get_status (processPaper cfg env now db0 p).1 p.arxiv_id =
          some Status.SKIPPED)
    ∧ (¬ maxRelevance st1 < cfg.threshold →
      processPaper cfg env now db0 p =
        afterRelevant env now
          (mark_status
            (mark_status
              (upsert_paper_metadata db0 p.arxiv_id p.title
                (String.intercalate "," p.categories) Status.NEW now)
              p.arxiv_id Status.STAGE1_OK (some (env.dumps1 st1)) none none now)
            p.arxiv_id Status.STAGE1_RELEVANT none none none now)
          p effs) := by
  constructor
  · intro hlt
    have heq : processPaper cfg env now db0 p =
        (mark_status
          (mark_status
            (upsert_paper_metadata db0 p.arxiv_id p.title
              (String.intercalate "," p.categories) Status.NEW now)
            p.arxiv_id Status.STAGE1_OK (some (env.dumps1 st1)) none none now)
          p.arxiv_id Status.SKIPPED none none none now,
         effs) := by
      simp [processPaper, hskip, processNew, hs1, hlt]
    refine ⟨heq, ?_⟩
    rw [heq]
    obtain ⟨r0, h0⟩ := getRecord_upsert_self db0 p.arxiv_id p.title
      (String.intercalate "," p.categories) Status.NEW now
    exact get_status_mark_of_some _ _ _ _ _ _ _ _
      (getRecord_mark_self _ _ _ _ _ _ _ _ h0)
  · intro hge
    simp [processPaper, hskip, processNew, hs1, hge]

/-- C6 witness: Stage-1 success with an empty topic list against threshold 1
ends at `SKIPPED`. -/
theorem c6_relevance_gate_witness :
    get_status (processPaper cfg1 envS1 1 [] pC5).1 "2401.00001" =
      some Status.SKIPPED :=
  ((c6_relevance_gate cfg1 envS1 1 [] pC5 { topics := [] } [Effect.modelCall]
      (by decide) rfl).1 (by decide)).2

/-- C7: a parse failure at Stage 1 (or Stage 2) triggers exactly one repair
model call: when the repair output parses the stage succeeds and its
payload is persisted with `STAGE1_OK`; when it fails too, the paper is
recorded `FAILED` with the parse error after exactly two model calls and
nothing further runs.  The Stage-2 repair behaves identically, recording
the error with the `"Stage2 parse: "` prefix. -/
theorem c7_repair_once (cfg : Config) (env : Env) (now : Nat) (db0 : DB)
    (p : PaperInput) (r1 r2 eA e2 : String)
    (hskip : is_in_progress_or_processed db0 p.arxiv_id = false)
    (hchat : env.chat_s1 = Except.ok r1)
    (hbad : env.parse_s1 r1 = Except.error eA)
    (hrep : env.chat_s1_repair r1 = Except.ok r2) :
    (∀ st1 : Stage1Parsed, env.parse_s1 r2 = Except.ok st1 →
      processPaper cfg env now db0 p =
        (let db2 := mark_status
            (upsert_paper_metadata db0 p.arxiv_id p.title
              (String.intercalate "," p.categories) Status.NEW now)
            p.arxiv_id Status.STAGE1_OK (some (env.dumps1 st1)) none none now
         if maxRelevance st1 < cfg.threshold then
           (mark_status db2 p.arxiv_id Status.SKIPPED none none none now,
            [Effect.modelCall, Effect.modelCall])
         else
           afterRelevant env now
             (mark_status db2 p.arxiv_id Status.STAGE1_RELEVANT none none none now)
             p [Effect.modelCall, Effect.modelCall]))
    ∧ (env.parse_s1 r2 = Except.error e2 →
      processPaper cfg env now db0 p =
        (mark_status
          (upsert_paper_metadata db0 p.arxiv_id p.title
            (String.intercalate "," p.categories) Status.NEW now)
          p.arxiv_id Status.FAILED none none (some e2) now,
         [Effect.modelCall, Effect.modelCall]))
    ∧ (∀ full_text rawB eB eC : String,
      env.chat_s2 full_text = Except.ok rawB →
      env.parse_s2 rawB = Except.error eB →
      env.chat_s2_repair rawB = Except.error eC →
      stage2Step env full_text =
        (Except.error ("Stage2 parse: " ++ eC),
         [Effect.modelCall, Effect.modelCall]))
    ∧ (∀ full_text rawB eB rawC : String, ∀ st2 : Stage2Parsed,
      env.chat_s2 full_text = Except.ok rawB →
      env.parse_s2 rawB = Except.error eB →
      env.chat_s2_repair rawB = Except.ok rawC →
      env.parse_s2 rawC = Except.ok st2 →
      stage2Step env full_text =
        (Except.ok st2, [Effect.modelCall, Effect.modelCall])) := by
  refine ⟨fun st1 hok => ?_, fun hbad2 => ?_, fun ft rb eB eC h1 h2 h3 => ?_,
    fun ft rb eB rc st2 h1 h2 h3 h4 => ?_⟩
  · have hs1 : stage1Step env =
        (Except.ok st1, [Effect.modelCall, Effect.modelCall]) := by
      simp [stage1Step, hchat, hbad, hrep, hok]
    simp [processPaper, hskip, processNew, hs1]
  · have hs1 : stage1Step env =
        (Except.error e2, [Effect.modelCall, Effect.modelCall]) := by
      simp [stage1Step, hchat, hbad, hrep, hbad2]
    simp [processPaper, hskip, processNew, hs1]
  · simp [stage2Step, h1, h2, h3]
  · simp [stage2Step, h1, h2, h3, h4]

/-- C7 witness: a model that always returns unparseable output makes
exactly two Stage-1 calls and records `FAILED` with the parse error. -/
theorem c7_repair_once_witness :
    processPaper cfg1 envS1Bad 1 [] pC5 =
      (mark_status
        (upsert_paper_metadata [] "2401.00001" "t" "cs.AI" Status.NEW 1)
        "2401.00001" Status.FAILED none none (some "bad") 1,
       [Effect.modelCall, Effect.modelCall]) :=
  (c7_repair_once cfg1 envS1Bad 1 [] pC5 "raw" "raw" "bad" "bad"
    (by decide) rfl rfl rfl).2.1 rfl

/-- C8: when the paper has a PDF URL and the download raises, the working
text falls back to the abstract.  If it clears the 50-character floor the
paper is marked `TEXT_EXTRACTED` directly — `PDF_DOWNLOADED` is skipped,
no `FAILED` for the download itself — and processing continues into
Stage 2 with that text; below the floor the paper is marked `FAILED`. -/
theorem c8_download_fallback (env : Env) (now : Nat) (db : DB)
    (p : PaperInput) (u d : String) (effs : List Effect)
    (hurl : p.pdf_url = some u)
    (hdl : env.download = Except.error d) :
    (50 ≤ (fallbackText p).length →
      afterRelevant env now db p effs =
        stage2AndEmail env now
          (mark_status db p.arxiv_id Status.TEXT_EXTRACTED none none none now)
          p (fallbackText p) (effs ++ [Effect.downloadPdf]))
    ∧ ((fallbackText p).length < 50 →
      afterRelevant env now db p effs =
        (mark_status db p.arxiv_id Status.FAILED none none
          (some "PDF failed and abstract too short") now,
         effs ++ [Effect.downloadPdf])) := by
  constructor
  · intro h
    simp only [afterRelevant, hurl, hdl]
    rw [if_neg (by omega)]
  · intro h
    simp only [afterRelevant, hurl, hdl]
    rw [if_pos h]

/-- A concrete paper with a long abstract and a PDF URL, used by witnesses. -/
def pLongAbs : PaperInput :=
  { arxiv_id := "2401.00003", title := "t", categories := [],
    abstract := some (String.mk (List.replicate 60 'a')),
    pdf_url := some "http://x/p.pdf" }

/-- A concrete paper with a short abstract and a PDF URL, used by witnesses. -/
def pShortAbs : PaperInput :=
  { arxiv_id := "2401.00004", title := "t", categories := [],
    abstract := some "tiny", pdf_url := some "http://x/p.pdf" }

/-- C8 witness: with a failing download, a 60-character abstract proceeds
into Stage 2 as the working text, a 4-character abstract ends in `FAILED`. -/
theorem c8_download_fallback_witness :
    afterRelevant envErr 1 [] pLongAbs [] =
      stage2AndEmail envErr 1
        (mark_status [] "2401.00003" Status.TEXT_EXTRACTED none none none 1)
        pLongAbs (fallbackText pLongAbs) [Effect.downloadPdf]
    ∧ afterRelevant envErr 1 [] pShortAbs [] =
      (mark_status [] "2401.00004" Status.FAILED none none
        (some "PDF failed and abstract too short") 1,
       [Effect.downloadPdf]) :=
  ⟨(c8_download_fallback envErr 1 [] pLongAbs "http://x/p.pdf" "down" []
      rfl rfl).1 (by decide),
   (c8_download_fallback envErr 1 [] pShortAbs "http://x/p.pdf" "down" []
      rfl rfl).2 (by decide)⟩

/-- C10: the quality floors are the concrete constants of the code: the
abstract fallback floor is 50 characters, the extracted-text floor is 100
characters or a `"[Extraction failed:"` prefix, and an empty or missing
abstract becomes the placeholder `"(No abstract)"` of length 13 < 50 — so
with an empty abstract every fallback path (download failure, extraction
exception, ineffective extracted text, no PDF URL) ends in `FAILED`, while
extracted text clearing the floor proceeds. -/
theorem c10_quality_floors (env : Env) (now : Nat) (db : DB) (p : PaperInput)
    (habs : pyStrip (p.abstract.getD "") = "") :
    fallbackText p = "(No abstract)"
    ∧ ("(No abstract)" : String).length = 13
    ∧ (∀ u dl : String, ∀ effs : List Effect,
        p.pdf_url = some u → env.download = Except.error dl →
        afterRelevant env now db p effs =
          (mark_status db p.arxiv_id Status.FAILED none none
            (some "PDF failed and abstract too short") now,
           effs ++ [Effect.downloadPdf]))
    ∧ (∀ u ex : String, ∀ effs : List Effect,
        p.pdf_url = some u → env.download = Except.ok () →
        env.extract = Except.error ex →
        afterRelevant env now db p effs =
          (mark_status
            (mark_status db p.arxiv_id Status.PDF_DOWNLOADED none none none now)
            p.arxiv_id Status.FAILED none none
            (some ("PDF text extraction: " ++ ex)) now,
           effs ++ [Effect.downloadPdf, Effect.extractText]))
    ∧ (∀ u text : String, ∀ effs : List Effect,
        p.pdf_url = some u → env.download = Except.ok () →
        env.extract = Except.ok text →
        (pyStartsWith (pyStrip text) "[Extraction failed:" = true ∨ (pyStrip text).length < 100) →
        afterRelevant env now db p effs =
          (mark_status
            (mark_status db p.arxiv_id Status.PDF_DOWNLOADED none none none now)
            p.arxiv_id Status.FAILED none none
            (some ("PDF text too short (" ++ toString (pyStrip text).length ++ " chars)")) now,
           effs ++ [Effect.downloadPdf, Effect.extractText]))
    ∧ (∀ u text : String, ∀ effs : List Effect,
        p.pdf_url = some u → env.download = Except.ok () →
        env.extract = Except.ok text →
        ¬ (pyStartsWith (pyStrip text) "[Extraction failed:" = true ∨ (pyStrip text).length < 100) →
        afterRelevant env now db p effs =
          stage2AndEmail env now
            (mark_status
              (mark_status db p.arxiv_id Status.PDF_DOWNLOADED none none none now)
              p.arxiv_id Status.TEXT_EXTRACTED none none none now)
            p text (effs ++ [Effect.downloadPdf, Effect.extractText]))
    ∧ (∀ effs : List Effect, p.pdf_url = none →
        afterRelevant env now db p effs =
          (mark_status db p.arxiv_id Status.FAILED none none
            (some "No PDF and abstract too short") now,
           effs)) := by
  have hfb : fallbackText p = "(No abstract)" := by
    simp [fallbackText, habs]
  have hlen : (fallbackText p).length < 50 := by
    rw [hfb]; decide
  refine ⟨hfb, by decide, ?_, ?_, ?_, ?_, ?_⟩
  · intro u dl effs hurl hdl
    simp only [afterRelevant, hurl, hdl]
    rw [if_pos hlen]
  · intro u ex effs hurl hdl hex
    simp only [afterRelevant, hurl, hdl, hex]
    rw [if_pos hlen]
  · intro u text effs hurl hdl hex hshort
    simp only [afterRelevant, hurl, hdl, hex]
    rw [if_pos hshort, if_neg (by omega)]
  · intro u text effs hurl hdl hex hgood
    simp only [afterRelevant, hurl, hdl, hex]
    rw [if_neg hgood]
  · intro effs hurl
    simp only [afterRelevant, hurl]
    rw [if_pos hlen]

/-- C10 witness: the concrete no-abstract paper fails on the no-PDF path. -/
theorem c10_quality_floors_witness :
    fallbackText pNoAbs = "(No abstract)"
    ∧ afterRelevant envErr 1 [] pNoAbs [] =
      (mark_status [] "2401.00002" Status.FAILED none none
        (some "No PDF and abstract too short") 1,
       []) := by
  have h := c10_quality_floors envErr 1 [] pNoAbs (by decide)
  exact ⟨h.1, h.2.2.2.2.2.2 [] rfl⟩

/-! ### Frame lemmas: processing one paper touches only its own row -/

theorem stage2AndEmail_frame {p : PaperInput} {q : String} (hq : q ≠ p.arxiv_id)
    (env : Env) (now : Nat) (db : DB) (full_text : String) (effs : List Effect) :
    getRecord (stage2AndEmail env now db p full_text effs).1 q = getRecord db q := by
  unfold stage2AndEmail
  cases h2 : stage2Step env full_text with
  | mk r2 e2 =>
      cases r2 with
      | error msg => simp [getRecord_mark_ne hq]
      | ok st2 =>
          cases env.send_email <;> simp [getRecord_mark_ne hq]

theorem afterRelevant_frame {p : PaperInput} {q : String} (hq : q ≠ p.arxiv_id)
    (env : Env) (now : Nat) (db : DB) (effs : List Effect) :
    getRecord (afterRelevant env now db p effs).1 q = getRecord db q := by
  unfold afterRelevant
  cases hurl : p.pdf_url with
  | none =>
      by_cases hlen : (fallbackText p).length < 50 <;>
        simp [hlen, getRecord_mark_ne hq, stage2AndEmail_frame hq]
  | some u =>
      cases hdl : env.download with
      | error d =>
          by_cases hlen : (fallbackText p).length < 50 <;>
            simp [hlen, getRecord_mark_ne hq, stage2AndEmail_frame hq]
      | ok _ =>
          cases hex : env.extract with
          | error e =>
              by_cases hlen : (fallbackText p).length < 50 <;>
                simp [hlen, getRecord_mark_ne hq, stage2AndEmail_frame hq]
          | ok text =>
              by_cases hbadtext :
                  pyStartsWith (pyStrip text) "[Extraction failed:" = true
                  ∨ (pyStrip text).length < 100
              · by_cases hfb : (fallbackText p).length ≥ 50 <;>
                  simp [hbadtext, hfb, getRecord_mark_ne hq,
                    stage2AndEmail_frame hq]
              · simp [hbadtext, getRecord_mark_ne hq, stage2AndEmail_frame hq]

theorem processPaper_frame {p : PaperInput} {q : String} (hq : q ≠ p.arxiv_id)
    (cfg : Config) (env : Env) (now : Nat) (db0 : DB) :
    getRecord (processPaper cfg env now db0 p).1 q = getRecord db0 q := by
  unfold processPaper
  by_cases hs : is_in_progress_or_processed db0 p.arxiv_id
  · simp [hs]
  · simp only [hs, Bool.false_eq_true, if_false, ite_false]
    unfold processNew
    cases h1 : stage1Step env with
    | mk r1 effs =>
        cases r1 with
        | error msg => simp [getRecord_mark_ne hq, getRecord_upsert_ne hq]
        | ok st1 =>
            by_cases hgate : maxRelevance st1 < cfg.threshold <;>
              simp [hgate, getRecord_mark_ne hq, getRecord_upsert_ne hq,
                afterRelevant_frame hq]

theorem runPapers_append (cfg : Config) (now : Nat) (db : DB)
    (xs ys : List (PaperInput × Env)) :
    runPapers cfg now db (xs ++ ys) =
      ((runPapers cfg now (runPapers cfg now db xs).1 ys).1,
       (runPapers cfg now db xs).2
         ++ (runPapers cfg now (runPapers cfg now db xs).1 ys).2) := by
  induction xs generalizing db with
  | nil => simp [runPapers]
  | cons hd tl ih =>
      obtain ⟨p, env⟩ := hd
      simp [runPapers, ih]

/-- C9: an exception reaching the per-paper boundary (here the Stage-1
model call raising) marks that paper `FAILED` with the exception text,
touches no other paper's row, and the batch continues with the remaining
papers exactly as a fresh run on the updated store would. -/
theorem c9_batch_continuity (cfg : Config) (now : Nat) (db : DB)
    (pre suf : List (PaperInput × Env)) (p : PaperInput) (envp : Env)
    (msg : String)
    (hfail : envp.chat_s1 = Except.error msg)
    (hns : is_in_progress_or_processed (runPapers cfg now db pre).1 p.arxiv_id
      = false) :
    (∃ r : PaperRecord,
      getRecord (processPaper cfg envp now (runPapers cfg now db pre).1 p).1
          p.arxiv_id = some r
        ∧ r.status = Status.FAILED ∧ r.error_message = some msg)
    ∧ (∀ q : String, q ≠ p.arxiv_id →
      getRecord (processPaper cfg envp now (runPapers cfg now db pre).1 p).1 q =
        getRecord (runPapers cfg now db pre).1 q)
    ∧ runPapers cfg now db (pre ++ (p, envp) :: suf) =
      ((runPapers cfg now
          (processPaper cfg envp now (runPapers cfg now db pre).1 p).1 suf).1,
       (runPapers cfg now db pre).2
         ++ ((processPaper cfg envp now (runPapers cfg now db pre).1 p).2
           ++ (runPapers cfg now
               (processPaper cfg envp now (runPapers cfg now db pre).1 p).1 suf).2)) := by
  refine ⟨?_, fun q hq => processPaper_frame hq cfg envp now _, ?_⟩
  · have hs1 : stage1Step envp = (Except.error msg, [Effect.modelCall]) := by
      simp [stage1Step, hfail]
    have heq : processPaper cfg envp now (runPapers cfg now db pre).1 p =
        (mark_status
          (upsert_paper_metadata (runPapers cfg now db pre).1 p.arxiv_id p.title
            (String.intercalate "," p.categories) Status.NEW now)
          p.arxiv_id Status.FAILED none none (some msg) now,
         [Effect.modelCall]) := by
      simp [processPaper, hns, processNew, hs1]
    rw [heq]
    obtain ⟨r0, h0⟩ := getRecord_upsert_self (runPapers cfg now db pre).1
      p.arxiv_id p.title (String.intercalate "," p.categories) Status.NEW now
    refine ⟨_, getRecord_mark_self _ _ _ _ _ _ _ _ h0, rfl, rfl⟩
  · rw [runPapers_append]
    simp [runPapers]

/-- C9 witness: in a singleton batch whose Stage-1 call raises, the paper
ends `FAILED` carrying the exception text and the store holds only that row. -/
theorem c9_batch_continuity_witness :
    (∃ r : PaperRecord,
      getRecord (processPaper cfg1 envErr 1 (runPapers cfg1 1 [] []).1 pC5).1
          "2401.00001" = some r
        ∧ r.status = Status.FAILED ∧ r.error_message = some "down") := by
  have h := c9_batch_continuity cfg1 1 [] [] [] pC5 envErr "down" rfl (by decide)
  exact h.1

end ArxivDigest
